import Mathlib

/-!
Shallow embedding of `src/lib/xml/metadata.c` from the `sol` repository.

The C file extracts two fields (`package_name`, `component`) from a
metadata XML document via libxml2 SAX callbacks.  We embed:

* `SolMetadata` — the output record (`struct SolMetadata`, minus the
  refcount header, which carries no observable parsing state);
* the `SolMetadataParseFlags` bitmask as `Nat` constants with the exact
  bit values of the C enum;
* `meta_mapping` — the key→flag table;
* `sol_sax_flip_state`, `sol_sax_flip_states`, `sol_sax_characters` —
  the SAX callbacks, as pure state transformers;
* `sol_metadata_load` — the driver.  The external libxml2 tokenizer is
  modelled by `XmlSource`: whether `xmlCreateFileParserCtxt` succeeds
  (`ctxOk`), the SAX events it delivers before completion or the first
  fatal error (`events`), and its final well-formedness verdict
  (`wellFormed`).  `xmlParseDocument` then is exactly: replay the events
  through the registered callbacks.
-/

/-- Output record of the extractor: `struct SolMetadata`.  In C both
fields are `char *`, `NULL` meaning absent; we use `Option String`. -/
structure SolMetadata where
  package_name : Option String
  component : Option String
  deriving Repr, DecidableEq

/-- Bit `1 << 0` of `SolMetadataParseFlags` (`MDATA_MIN`), never set. -/
def MDATA_MIN : Nat := 1

/-- Bit `1 << 1` of `SolMetadataParseFlags` (`MDATA_ROOT`). -/
def MDATA_ROOT : Nat := 2

/-- Bit `1 << 2` of `SolMetadataParseFlags` (`MDATA_PACKAGE`). -/
def MDATA_PACKAGE : Nat := 4

/-- Bit `1 << 3` of `SolMetadataParseFlags` (`MDATA_HISTORY`). -/
def MDATA_HISTORY : Nat := 8

/-- Bit `1 << 4` of `SolMetadataParseFlags` (`MDATA_SOURCE`). -/
def MDATA_SOURCE : Nat := 16

/-- Bit `1 << 5` of `SolMetadataParseFlags` (`MDATA_NAME`). -/
def MDATA_NAME : Nat := 32

/-- Bit `1 << 6` of `SolMetadataParseFlags` (`MDATA_COMPONENT`). -/
def MDATA_COMPONENT : Nat := 64

/-- Bit `1 << 7` of `SolMetadataParseFlags` (`MDATA_PACKAGER`). -/
def MDATA_PACKAGER : Nat := 128

/-- Bit `1 << 8` of `SolMetadataParseFlags` (`MDATA_EMAIL`). -/
def MDATA_EMAIL : Nat := 256

/-- Entry of the key→flag table (`struct MetaMap`). -/
structure MetaMap where
  key : String
  flag : Nat
  deriving Repr, DecidableEq

/-- The `meta_mapping` table of `metadata.c`, in source order.  The C
array's `{ 0 }` sentinel (the loop's `break` condition) is modelled by
the end of the list. -/
def meta_mapping : List MetaMap :=
  [ { key := "Package", flag := MDATA_PACKAGE },
    { key := "History", flag := MDATA_HISTORY },
    { key := "Source", flag := MDATA_SOURCE },
    { key := "Name", flag := MDATA_NAME },
    { key := "PartOf", flag := MDATA_COMPONENT },
    { key := "Packager", flag := MDATA_PACKAGER },
    { key := "Email", flag := MDATA_EMAIL } ]

/-- Parse-time state: `struct SolMetadataParseContext`.  In C the
`metadata` member is a pointer into the caller's record; here we carry
the record by value and return the updated copy. -/
structure SolMetadataParseContext where
  flags : Nat
  metadata : SolMetadata
  deriving Repr, DecidableEq

/-- The C test `self->flags & MDATA_ROOT` used as a boolean
(`sol_sax_in_root`). -/
def sol_sax_in_root (flags : Nat) : Bool :=
  flags &&& MDATA_ROOT != 0

/-- One attempted toggle (`sol_sax_flip_state`): if `name` equals `key`
the flag is XOR-toggled and the match is reported. -/
def sol_sax_flip_state (flags : Nat) (name key : String) (flag : Nat) :
    Bool × Nat :=
  if name = key then (true, flags ^^^ flag) else (false, flags)

/-- The mapping-table loop at the end of `sol_sax_flip_states`: scan
`meta_mapping` in order, toggle the first matching flag, stop there. -/
def flipLoop (flags : Nat) (name : String) : List MetaMap → Nat
  | [] => flags
  | m :: rest =>
      let r := sol_sax_flip_state flags name m.key m.flag
      if r.1 then r.2 else flipLoop flags name rest

/-- `sol_sax_flip_states`: root spellings `PISI` / `SOL` toggle the root
flag and consume the event; otherwise events outside the root are
ignored; otherwise the mapping table is scanned. -/
def sol_sax_flip_states (flags : Nat) (name : String) : Nat :=
  let root1 := sol_sax_flip_state flags name "PISI" MDATA_ROOT
  if root1.1 then root1.2
  else
    let root2 := sol_sax_flip_state flags name "SOL" MDATA_ROOT
    if root2.1 then root2.2
    else if !sol_sax_in_root flags then flags
    else flipLoop flags name meta_mapping

/-- A SAX event delivered by the tokenizer: `startElement`,
`endElement`, or `characters` (one delivered chunk of text). -/
inductive SaxEvent where
  | startElement (name : String)
  | endElement (name : String)
  | characters (text : String)
  deriving Repr, DecidableEq

/-- `sol_sax_characters`: exact-set match `{root, Package, Name}` feeds
`package_name`; otherwise containment of `MDATA_COMPONENT` feeds
`component`; otherwise the text is ignored.  `strndup` replaces the
stored pointer with a copy of just this chunk. -/
def sol_sax_characters (ctx : SolMetadataParseContext) (text : String) :
    SolMetadataParseContext :=
  if ctx.flags = MDATA_ROOT ||| MDATA_PACKAGE ||| MDATA_NAME then
    { ctx with metadata := { ctx.metadata with package_name := some text } }
  else if ctx.flags &&& MDATA_COMPONENT != 0 then
    { ctx with metadata := { ctx.metadata with component := some text } }
  else ctx

/-- Dispatch of one SAX event to the registered handlers:
`sol_sax_start_element` and `sol_sax_end_element` both call
`sol_sax_flip_states`; `characters` calls `sol_sax_characters`. -/
def sol_sax_event (ctx : SolMetadataParseContext) :
    SaxEvent → SolMetadataParseContext
  | .startElement name => { ctx with flags := sol_sax_flip_states ctx.flags name }
  | .endElement name => { ctx with flags := sol_sax_flip_states ctx.flags name }
  | .characters text => sol_sax_characters ctx text

/-- Replay a whole event stream through the SAX handlers (what
`xmlParseDocument` does with the installed `xmlSAXHandler`). -/
def runCtx (ctx : SolMetadataParseContext) :
    List SaxEvent → SolMetadataParseContext
  | [] => ctx
  | e :: rest => runCtx (sol_sax_event ctx e) rest

/-- `sol_metadata_clean`: free both strings and set them to `NULL`. -/
def sol_metadata_clean (_m : SolMetadata) : SolMetadata :=
  { package_name := none, component := none }

/-- `sol_metadata_new` (the successful-allocation case): a zeroed
record, both fields absent. -/
def sol_metadata_new : SolMetadata :=
  { package_name := none, component := none }

/-- Model of the external libxml2 tokenizer's behaviour on one source:
does context creation succeed, which SAX events are delivered, and the
final `ctx->wellFormed` verdict. -/
structure XmlSource where
  ctxOk : Bool
  events : List SaxEvent
  wellFormed : Bool

/-- `sol_metadata_load`: on context-creation failure return `false`
with the record untouched; otherwise replay the parse from a zeroed
`SolMetadataParseContext` (`instance = { .metadata = meta }`), then on a
malformed document clean the record and return `false`, else return
`true` with whatever the callbacks wrote. -/
def sol_metadata_load (meta : SolMetadata) (src : XmlSource) :
    Bool × SolMetadata :=
  if !src.ctxOk then
    (false, meta)
  else
    let inst : SolMetadataParseContext := { flags := 0, metadata := meta }
    let final := runCtx inst src.events
    let good := src.wellFormed
    if !good then
      (false, sol_metadata_clean final.metadata)
    else
      (true, final.metadata)

/-- `sol_metadata_get_package_name`. -/
def sol_metadata_get_package_name (meta : SolMetadata) : Option String :=
  meta.package_name

/-- `sol_metadata_get_component`. -/
def sol_metadata_get_component (meta : SolMetadata) : Option String :=
  meta.component

/-! ## Characterization helpers

Proof-side descriptions of the run, each proved equal to the embedded
code's behaviour below.  They are stated from the code's branch
structure, not redefinitions of it. -/

/-- Prefer a value written later in the parse over the value already
stored: `overlay new old` is `new` when the parse wrote one. -/
def overlay (newv old : Option String) : Option String :=
  match newv with
  | some t => some t
  | none => old

/-- Flags-only view of one SAX event (`characters` leaves the bitmask
alone; tag events run `sol_sax_flip_states`). -/
def stepFlags (flags : Nat) : SaxEvent → Nat
  | .startElement name => sol_sax_flip_states flags name
  | .endElement name => sol_sax_flip_states flags name
  | .characters _ => flags

/-- Flags-only view of a whole event stream. -/
def runFlags (flags : Nat) : List SaxEvent → Nat
  | [] => flags
  | e :: rest => runFlags (stepFlags flags e) rest

/-- Text of the last `characters` event of the stream that takes the
`package_name` branch of `sol_sax_characters`, if any. -/
def lastMatchPackage (flags : Nat) : List SaxEvent → Option String
  | [] => none
  | e :: rest =>
      overlay (lastMatchPackage (stepFlags flags e) rest)
        (match e with
         | .characters t =>
             if flags = MDATA_ROOT ||| MDATA_PACKAGE ||| MDATA_NAME then some t
             else none
         | _ => none)

/-- Text of the last `characters` event of the stream that takes the
`component` branch of `sol_sax_characters`, if any. -/
def lastMatchComponent (flags : Nat) : List SaxEvent → Option String
  | [] => none
  | e :: rest =>
      overlay (lastMatchComponent (stepFlags flags e) rest)
        (match e with
         | .characters t =>
             if flags = MDATA_ROOT ||| MDATA_PACKAGE ||| MDATA_NAME then none
             else if flags &&& MDATA_COMPONENT != 0 then some t
             else none
         | _ => none)

theorem overlay_assoc (a b c : Option String) :
    overlay (overlay a b) c = overlay a (overlay b c) := by
  cases a <;> rfl

theorem sol_sax_event_flags (ctx : SolMetadataParseContext) (e : SaxEvent) :
    (sol_sax_event ctx e).flags = stepFlags ctx.flags e := by
  cases e with
  | startElement n => rfl
  | endElement n => rfl
  | characters t =>
      simp only [sol_sax_event, sol_sax_characters, stepFlags]
      split <;> [rfl; skip]
      split <;> rfl

theorem runCtx_flags (evs : List SaxEvent) :
    ∀ ctx : SolMetadataParseContext,
      (runCtx ctx evs).flags = runFlags ctx.flags evs := by
  induction evs with
  | nil => intro ctx; rfl
  | cons e rest ih =>
      intro ctx
      simp only [runCtx, runFlags, ih, sol_sax_event_flags]

theorem sol_sax_event_package (ctx : SolMetadataParseContext) (e : SaxEvent) :
    (sol_sax_event ctx e).metadata.package_name =
      overlay
        (match e with
         | .characters t =>
             if ctx.flags = MDATA_ROOT ||| MDATA_PACKAGE ||| MDATA_NAME then some t
             else none
         | _ => none)
        ctx.metadata.package_name := by
  cases e with
  | startElement n => rfl
  | endElement n => rfl
  | characters t =>
      simp only [sol_sax_event, sol_sax_characters]
      split
      · simp [overlay]
      · split <;> simp [overlay]

theorem sol_sax_event_component (ctx : SolMetadataParseContext) (e : SaxEvent) :
    (sol_sax_event ctx e).metadata.component =
      overlay
        (match e with
         | .characters t =>
             if ctx.flags = MDATA_ROOT ||| MDATA_PACKAGE ||| MDATA_NAME then none
             else if ctx.flags &&& MDATA_COMPONENT != 0 then some t
             else none
         | _ => none)
        ctx.metadata.component := by
  cases e with
  | startElement n => rfl
  | endElement n => rfl
  | characters t =>
      simp only [sol_sax_event, sol_sax_characters]
      split
      · simp [overlay]
      · split <;> simp [overlay]

theorem runCtx_package (evs : List SaxEvent) :
    ∀ ctx : SolMetadataParseContext,
      (runCtx ctx evs).metadata.package_name =
        overlay (lastMatchPackage ctx.flags evs) ctx.metadata.package_name := by
  induction evs with
  | nil => intro ctx; rfl
  | cons e rest ih =>
      intro ctx
      simp only [runCtx, lastMatchPackage, ih, overlay_assoc,
        sol_sax_event_flags, sol_sax_event_package]

theorem runCtx_component (evs : List SaxEvent) :
    ∀ ctx : SolMetadataParseContext,
      (runCtx ctx evs).metadata.component =
        overlay (lastMatchComponent ctx.flags evs) ctx.metadata.component := by
  induction evs with
  | nil => intro ctx; rfl
  | cons e rest ih =>
      intro ctx
      simp only [runCtx, lastMatchComponent, ih, overlay_assoc,
        sol_sax_event_flags, sol_sax_event_component]

/-- Record-level form of `runCtx_package` / `runCtx_component`. -/
theorem runCtx_metadata (evs : List SaxEvent) (ctx : SolMetadataParseContext) :
    (runCtx ctx evs).metadata =
      { package_name := overlay (lastMatchPackage ctx.flags evs) ctx.metadata.package_name,
        component := overlay (lastMatchComponent ctx.flags evs) ctx.metadata.component } := by
  have hp := runCtx_package evs ctx
  have hc := runCtx_component evs ctx
  cases h : (runCtx ctx evs).metadata with
  | mk p c =>
      rw [h] at hp hc
      simp only at hp hc
      simp [hp, hc]

/-! ## Concrete documents used in counterexamples -/

/-- Event stream of `<SOL><Package><Name>A</Name></Package></SOL>`. -/
def docPkgA : List SaxEvent :=
  [.startElement "SOL", .startElement "Package", .startElement "Name",
   .characters "A", .endElement "Name", .endElement "Package",
   .endElement "SOL"]

/-- Event stream of `<SOL><PartOf>B</PartOf></SOL>`. -/
def docPartB : List SaxEvent :=
  [.startElement "SOL", .startElement "PartOf", .characters "B",
   .endElement "PartOf", .endElement "SOL"]

/-- Event stream of the empty root document `<SOL></SOL>`. -/
def docEmpty : List SaxEvent :=
  [.startElement "SOL", .endElement "SOL"]

/-- C3: a parse the tokenizer judges malformed makes `load` return
`false` with both output fields cleared to absent, whatever partial
field assignments the event stream performed before the error. -/
theorem malformed_clears_both_fields (m : SolMetadata) (evs : List SaxEvent) :
    sol_metadata_load m { ctxOk := true, events := evs, wellFormed := false }
      = (false, { package_name := none, component := none }) := rfl

/-- C4: when creating the tokenizer parse context fails, `load` returns
`false` immediately and the record keeps exactly its prior values. -/
theorem ctx_failure_leaves_record_unchanged (m : SolMetadata)
    (evs : List SaxEvent) (wf : Bool) :
    sol_metadata_load m { ctxOk := false, events := evs, wellFormed := wf }
      = (false, m) := rfl

/-- C5: on a character-data event, `package_name` becomes the text
exactly when the flag set equals `{root, Package, Name}`; for any other
flag set (for example `Name` directly under the root, flags
`{root, Name}`) `package_name` is left untouched. -/
theorem package_name_requires_exact_set (ctx : SolMetadataParseContext)
    (text : String) :
    (sol_sax_characters ctx text).metadata.package_name =
      (if ctx.flags = MDATA_ROOT ||| MDATA_PACKAGE ||| MDATA_NAME then some text
       else ctx.metadata.package_name) := by
  unfold sol_sax_characters
  split
  · rfl
  · split <;> rfl

/-- C6: on a character-data event whose flag set is not exactly
`{root, Package, Name}` but contains `MDATA_COMPONENT`, `component` is
set to the text, whatever other flags are present. -/
theorem component_containment_match (ctx : SolMetadataParseContext)
    (text : String)
    (hne : ctx.flags ≠ MDATA_ROOT ||| MDATA_PACKAGE ||| MDATA_NAME)
    (hc : ctx.flags &&& MDATA_COMPONENT ≠ 0) :
    (sol_sax_characters ctx text).metadata.component = some text := by
  simp [sol_sax_characters, hne, hc]

/-- Witness for C6 at the `History`-nested state
`{root, History, PartOf}` reached inside
`<SOL><History><PartOf>Z</PartOf></History></SOL>`. -/
theorem component_containment_match_witness :
    (MDATA_ROOT ||| MDATA_HISTORY ||| MDATA_COMPONENT)
        ≠ MDATA_ROOT ||| MDATA_PACKAGE ||| MDATA_NAME ∧
    (MDATA_ROOT ||| MDATA_HISTORY ||| MDATA_COMPONENT) &&& MDATA_COMPONENT ≠ 0 ∧
    (sol_sax_characters
        { flags := MDATA_ROOT ||| MDATA_HISTORY ||| MDATA_COMPONENT,
          metadata := sol_metadata_new } "Z").metadata.component = some "Z" :=
  ⟨by decide, by decide,
    component_containment_match _ "Z" (by decide) (by decide)⟩

/-- C9: for every text `X`, the document
`<PISI><Package><Name>X</Name></Package></PISI>` (no `PartOf`), loaded
well-formed into a fresh record, returns `true` with
`get_package_name = some X` and `get_component = none`. -/
theorem package_doc_extracts_name (x : String) :
    sol_metadata_load sol_metadata_new
        { ctxOk := true,
          events := [.startElement "PISI", .startElement "Package",
                     .startElement "Name", .characters x, .endElement "Name",
                     .endElement "Package", .endElement "PISI"],
          wellFormed := true }
      = (true, { package_name := some x, component := none }) ∧
    sol_metadata_get_package_name
        (sol_metadata_load sol_metadata_new
          { ctxOk := true,
            events := [.startElement "PISI", .startElement "Package",
                       .startElement "Name", .characters x, .endElement "Name",
                       .endElement "Package", .endElement "PISI"],
            wellFormed := true }).2 = some x ∧
    sol_metadata_get_component
        (sol_metadata_load sol_metadata_new
          { ctxOk := true,
            events := [.startElement "PISI", .startElement "Package",
                       .startElement "Name", .characters x, .endElement "Name",
                       .endElement "Package", .endElement "PISI"],
            wellFormed := true }).2 = none :=
  ⟨rfl, rfl, rfl⟩

/-- C10: over any event stream, each output field ends up holding
exactly the text of the last character-data event that matched it (and
the prior value when none matched) — an overwrite on every match, never
a concatenation of chunks. -/
theorem matched_text_overwrites_field (ctx : SolMetadataParseContext)
    (evs : List SaxEvent) :
    (runCtx ctx evs).metadata.package_name =
        overlay (lastMatchPackage ctx.flags evs) ctx.metadata.package_name ∧
    (runCtx ctx evs).metadata.component =
        overlay (lastMatchComponent ctx.flags evs) ctx.metadata.component :=
  ⟨runCtx_package evs ctx, runCtx_component evs ctx⟩

/-- C1 counterexample: load `<SOL><Package><Name>A</Name></Package></SOL>`
and then the well-formed `<SOL></SOL>` into the same record.  No event
of the second parse sets `package_name`, yet it still holds `"A"` — the
claimed reset at the start of `load` does not happen. -/
theorem load_reset_counterexample :
    (sol_metadata_load
        (sol_metadata_load sol_metadata_new
          { ctxOk := true, events := docPkgA, wellFormed := true }).2
        { ctxOk := true, events := docEmpty, wellFormed := true }).2.package_name
      = some "A" ∧
    (sol_metadata_load
        (sol_metadata_load sol_metadata_new
          { ctxOk := true, events := docPkgA, wellFormed := true }).2
        { ctxOk := true, events := docEmpty, wellFormed := true }).2.package_name
      ≠ none := by
  exact ⟨rfl, by decide⟩

/-- C1 amended: `load` performs no reset; on a well-formed parse each
output field becomes the last matching character text of that parse
when there is one, and otherwise keeps its prior value. -/
theorem load_overlays_prior_record (m : SolMetadata) (evs : List SaxEvent) :
    (sol_metadata_load m { ctxOk := true, events := evs, wellFormed := true }).2
      = { package_name := overlay (lastMatchPackage 0 evs) m.package_name,
          component := overlay (lastMatchComponent 0 evs) m.component } := by
  show (runCtx { flags := 0, metadata := m } evs).metadata = _
  exact runCtx_metadata evs _

/-- C2 counterexample: loading `<SOL><Package><Name>A</Name></Package></SOL>`
and then `<SOL><PartOf>B</PartOf></SOL>` into the same record leaves
`(some "A", some "B")`, although the second document alone yields
`(none, some "B")`: the state is neither the second document's values
nor both-absent. -/
theorem load_invariant_counterexample :
    (sol_metadata_load
        (sol_metadata_load sol_metadata_new
          { ctxOk := true, events := docPkgA, wellFormed := true }).2
        { ctxOk := true, events := docPartB, wellFormed := true }).2
      = { package_name := some "A", component := some "B" } ∧
    (sol_metadata_load sol_metadata_new
        { ctxOk := true, events := docPartB, wellFormed := true }).2
      = { package_name := none, component := some "B" } :=
  ⟨rfl, rfl⟩

/-- C2 amended: full characterization of `load`.  Context-creation
failure leaves the record unchanged; a malformed document clears both
fields; a well-formed parse overlays each field with that parse's last
matching text, keeping the prior value where the parse wrote nothing
(so residue from an earlier load can survive a successful re-load). -/
theorem load_state_characterization (m : SolMetadata) (src : XmlSource) :
    sol_metadata_load m src =
      if src.ctxOk = false then (false, m)
      else if src.wellFormed = false then
        (false, { package_name := none, component := none })
      else
        (true,
          { package_name := overlay (lastMatchPackage 0 src.events) m.package_name,
            component := overlay (lastMatchComponent 0 src.events) m.component }) := by
  cases src with
  | mk ok evs wf =>
      cases ok <;> cases wf <;>
        simp [sol_metadata_load, sol_metadata_clean, runCtx_metadata]

/-! ## Root-spelling equivalence -/

/-- Swap the two accepted root spellings, leaving every other name
alone. -/
def swapRootName (n : String) : String :=
  if n = "PISI" then "SOL" else if n = "SOL" then "PISI" else n

/-- Apply `swapRootName` to the tag of a tag event; character data is
not a tag occurrence and is unchanged. -/
def swapRootEvent : SaxEvent → SaxEvent
  | .startElement n => .startElement (swapRootName n)
  | .endElement n => .endElement (swapRootName n)
  | .characters t => .characters t

/-- The same source with every root-tag occurrence respelled. -/
def swapRootSource (src : XmlSource) : XmlSource :=
  { src with events := src.events.map swapRootEvent }

theorem flip_states_swapRootName (flags : Nat) (n : String) :
    sol_sax_flip_states flags (swapRootName n) = sol_sax_flip_states flags n := by
  by_cases h1 : n = "PISI"
  · subst h1; rfl
  · by_cases h2 : n = "SOL"
    · subst h2; rfl
    · have : swapRootName n = n := by simp [swapRootName, h1, h2]
      rw [this]

theorem sol_sax_event_swapRootEvent (ctx : SolMetadataParseContext)
    (e : SaxEvent) :
    sol_sax_event ctx (swapRootEvent e) = sol_sax_event ctx e := by
  cases e <;> simp [sol_sax_event, swapRootEvent, flip_states_swapRootName]

theorem runCtx_swapRootEvent (evs : List SaxEvent) :
    ∀ ctx : SolMetadataParseContext,
      runCtx ctx (evs.map swapRootEvent) = runCtx ctx evs := by
  induction evs with
  | nil => intro ctx; rfl
  | cons e rest ih =>
      intro ctx
      simp [runCtx, sol_sax_event_swapRootEvent, ih]

/-- C8: respelling every root-tag occurrence (`PISI` ↔ `SOL`) changes
nothing observable: `load` returns the same verdict and record, and
both accessors read the same values. -/
theorem root_spellings_interchangeable (m : SolMetadata) (src : XmlSource) :
    sol_metadata_load m (swapRootSource src) = sol_metadata_load m src ∧
    sol_metadata_get_package_name
        (sol_metadata_load m (swapRootSource src)).2
      = sol_metadata_get_package_name (sol_metadata_load m src).2 ∧
    sol_metadata_get_component
        (sol_metadata_load m (swapRootSource src)).2
      = sol_metadata_get_component (sol_metadata_load m src).2 := by
  have h : sol_metadata_load m (swapRootSource src) = sol_metadata_load m src := by
    unfold sol_metadata_load swapRootSource
    simp [runCtx_swapRootEvent]
  exact ⟨h, by rw [h], by rw [h]⟩

/-! ## Flag-parity analysis (claim C7) -/

/-- Plain number of open/close tag events carrying exactly this tag
name, with no side condition — the counting notion the spec's invariant
uses. -/
def tagEventCount (key : String) : List SaxEvent → Nat
  | [] => 0
  | e :: rest =>
      (match e with
       | .startElement n => if n = key then 1 else 0
       | .endElement n => if n = key then 1 else 0
       | .characters _ => 0) + tagEventCount key rest

/-- C7 counterexample: in the parse prefix
`<Package><PISI>` one open/close event for `Package` has been seen (an
odd number), yet the `Package` flag is not in the active-state set —
the event arrived while the root flag was clear and was ignored. -/
theorem toggle_parity_counterexample :
    tagEventCount "Package"
        [.startElement "Package", .startElement "PISI"] % 2 = 1 ∧
    runFlags 0 [.startElement "Package", .startElement "PISI"]
        &&& MDATA_PACKAGE = 0 := by decide

/-- Mask actually toggled by `sol_sax_flip_states` for one tag name in
one flag state: the root bit for either root spelling, nothing outside
the root, else the first matching table flag. -/
def loopMask (name : String) : List MetaMap → Nat
  | [] => 0
  | m :: rest => if name = m.key then m.flag else loopMask name rest

/-- Toggle mask of a whole `sol_sax_flip_states` call. -/
def tagToggleMask (flags : Nat) (name : String) : Nat :=
  if name = "PISI" ∨ name = "SOL" then MDATA_ROOT
  else if !sol_sax_in_root flags then 0
  else loopMask name meta_mapping

theorem flipLoop_eq_xor (flags : Nat) (name : String) :
    ∀ l : List MetaMap, flipLoop flags name l = flags ^^^ loopMask name l := by
  intro l
  induction l with
  | nil => simp [flipLoop, loopMask]
  | cons m rest ih =>
      simp only [flipLoop, loopMask, sol_sax_flip_state]
      by_cases h : name = m.key <;> simp [h, ih]

theorem flip_states_eq_xor (flags : Nat) (name : String) :
    sol_sax_flip_states flags name = flags ^^^ tagToggleMask flags name := by
  unfold sol_sax_flip_states tagToggleMask sol_sax_flip_state
  by_cases h1 : name = "PISI"
  · simp [h1]
  · by_cases h2 : name = "SOL"
    · simp [h1, h2]
    · by_cases h3 : sol_sax_in_root flags = true
      · simp [h1, h2, h3, flipLoop_eq_xor]
      · simp [h1, h2, h3]

/-- Gated event count: how many events of the stream satisfy `P` at
their arrival flag state (the flag state is threaded through the
toggles as the parse advances). -/
def eventCount (P : Nat → SaxEvent → Bool) (flags : Nat) :
    List SaxEvent → Nat
  | [] => 0
  | e :: rest =>
      (if P flags e then 1 else 0) + eventCount P (stepFlags flags e) rest

/-- Is this an open/close event of one of the two root spellings? -/
def isRootTag (_flags : Nat) : SaxEvent → Bool
  | .startElement n => n = "PISI" || n = "SOL"
  | .endElement n => n = "PISI" || n = "SOL"
  | .characters _ => false

/-- Is this an open/close event of tag `key`, arriving while the root
flag is set? -/
def isGatedTag (key : String) (flags : Nat) : SaxEvent → Bool
  | .startElement n => decide (n = key) && sol_sax_in_root flags
  | .endElement n => decide (n = key) && sol_sax_in_root flags
  | .characters _ => false

/-- Generic parity lemma: if every single event toggles bit `k` exactly
when `P` holds of it, then after any stream bit `k` equals its initial
value xor the parity of the gated count of `P`-events. -/
theorem runFlags_testBit_parity (P : Nat → SaxEvent → Bool) (k : Nat)
    (hstep : ∀ flags e,
      (stepFlags flags e).testBit k = ((flags.testBit k).xor (P flags e))) :
    ∀ (evs : List SaxEvent) (flags : Nat),
      (runFlags flags evs).testBit k =
        ((flags.testBit k).xor (decide (eventCount P flags evs % 2 = 1))) := by
  intro evs
  induction evs with
  | nil => intro flags; simp [runFlags, eventCount]
  | cons e rest ih =>
      intro flags
      simp only [runFlags, eventCount]
      rw [ih, hstep]
      rcases Nat.mod_two_eq_zero_or_one
          (eventCount P (stepFlags flags e) rest) with h | h <;>
        by_cases hP : P flags e = true <;>
          simp [hP, h, Nat.add_mod, Bool.xor_assoc]

theorem tagToggleMask_testBit_root (flags : Nat) (n : String) :
    (tagToggleMask flags n).testBit 1
      = isRootTag flags (SaxEvent.startElement n) := by
  unfold tagToggleMask isRootTag
  by_cases h1 : n = "PISI"
  · simp [h1]; decide
  · by_cases h2 : n = "SOL"
    · simp [h1, h2]; decide
    · by_cases h3 : sol_sax_in_root flags = true
      · simp only [h1, h2, or_self, if_false, h3, Bool.not_true,
          Bool.false_eq_true, loopMask, meta_mapping]
        simp [h1, h2]
        split_ifs <;> decide
      · simp [h1, h2, h3]

theorem tagToggleMask_testBit_package (flags : Nat) (n : String) :
    (tagToggleMask flags n).testBit 2
      = isGatedTag "Package" flags (SaxEvent.startElement n) := by
  unfold tagToggleMask isGatedTag
  by_cases h1 : n = "PISI"
  · simp [h1]; decide
  · by_cases h2 : n = "SOL"
    · simp [h1, h2]; decide
    · by_cases h3 : sol_sax_in_root flags = true
      · simp only [h1, h2, or_self, if_false, h3, Bool.not_true,
          Bool.false_eq_true, loopMask, meta_mapping, Bool.and_true]
        split_ifs <;> simp_all <;> decide
      · simp [h1, h2, h3]

theorem tagToggleMask_testBit_history (flags : Nat) (n : String) :
    (tagToggleMask flags n).testBit 3
      = isGatedTag "History" flags (SaxEvent.startElement n) := by
  unfold tagToggleMask isGatedTag
  by_cases h1 : n = "PISI"
  · simp [h1]; decide
  · by_cases h2 : n = "SOL"
    · simp [h1, h2]; decide
    · by_cases h3 : sol_sax_in_root flags = true
      · simp only [h1, h2, or_self, if_false, h3, Bool.not_true,
          Bool.false_eq_true, loopMask, meta_mapping, Bool.and_true]
        split_ifs <;> simp_all <;> decide
      · simp [h1, h2, h3]

theorem tagToggleMask_testBit_source (flags : Nat) (n : String) :
    (tagToggleMask flags n).testBit 4
      = isGatedTag "Source" flags (SaxEvent.startElement n) := by
  unfold tagToggleMask isGatedTag
  by_cases h1 : n = "PISI"
  · simp [h1]; decide
  · by_cases h2 : n = "SOL"
    · simp [h1, h2]; decide
    · by_cases h3 : sol_sax_in_root flags = true
      · simp only [h1, h2, or_self, if_false, h3, Bool.not_true,
          Bool.false_eq_true, loopMask, meta_mapping, Bool.and_true]
        split_ifs <;> simp_all <;> decide
      · simp [h1, h2, h3]

theorem tagToggleMask_testBit_name (flags : Nat) (n : String) :
    (tagToggleMask flags n).testBit 5
      = isGatedTag "Name" flags (SaxEvent.startElement n) := by
  unfold tagToggleMask isGatedTag
  by_cases h1 : n = "PISI"
  · simp [h1]; decide
  · by_cases h2 : n = "SOL"
    · simp [h1, h2]; decide
    · by_cases h3 : sol_sax_in_root flags = true
      · simp only [h1, h2, or_self, if_false, h3, Bool.not_true,
          Bool.false_eq_true, loopMask, meta_mapping, Bool.and_true]
        split_ifs <;> simp_all <;> decide
      · simp [h1, h2, h3]

theorem tagToggleMask_testBit_component (flags : Nat) (n : String) :
    (tagToggleMask flags n).testBit 6
      = isGatedTag "PartOf" flags (SaxEvent.startElement n) := by
  unfold tagToggleMask isGatedTag
  by_cases h1 : n = "PISI"
  · simp [h1]; decide
  · by_cases h2 : n = "SOL"
    · simp [h1, h2]; decide
    · by_cases h3 : sol_sax_in_root flags = true
      · simp only [h1, h2, or_self, if_false, h3, Bool.not_true,
          Bool.false_eq_true, loopMask, meta_mapping, Bool.and_true]
        split_ifs <;> simp_all <;> decide
      · simp [h1, h2, h3]

theorem tagToggleMask_testBit_packager (flags : Nat) (n : String) :
    (tagToggleMask flags n).testBit 7
      = isGatedTag "Packager" flags (SaxEvent.startElement n) := by
  unfold tagToggleMask isGatedTag
  by_cases h1 : n = "PISI"
  · simp [h1]; decide
  · by_cases h2 : n = "SOL"
    · simp [h1, h2]; decide
    · by_cases h3 : sol_sax_in_root flags = true
      · simp only [h1, h2, or_self, if_false, h3, Bool.not_true,
          Bool.false_eq_true, loopMask, meta_mapping, Bool.and_true]
        split_ifs <;> simp_all <;> decide
      · simp [h1, h2, h3]

theorem tagToggleMask_testBit_email (flags : Nat) (n : String) :
    (tagToggleMask flags n).testBit 8
      = isGatedTag "Email" flags (SaxEvent.startElement n) := by
  unfold tagToggleMask isGatedTag
  by_cases h1 : n = "PISI"
  · simp [h1]; decide
  · by_cases h2 : n = "SOL"
    · simp [h1, h2]; decide
    · by_cases h3 : sol_sax_in_root flags = true
      · simp only [h1, h2, or_self, if_false, h3, Bool.not_true,
          Bool.false_eq_true, loopMask, meta_mapping, Bool.and_true]
        split_ifs <;> simp_all <;> decide
      · simp [h1, h2, h3]

/-- Per-event bit evolution, derived from a mask-level description of
one `sol_sax_flip_states` call. -/
theorem stepFlags_testBit_of_mask (k : Nat) (P : Nat → SaxEvent → Bool)
    (hchar : ∀ flags t, P flags (SaxEvent.characters t) = false)
    (hsym : ∀ flags n,
      P flags (SaxEvent.endElement n) = P flags (SaxEvent.startElement n))
    (hmask : ∀ flags n,
      (tagToggleMask flags n).testBit k = P flags (SaxEvent.startElement n)) :
    ∀ (flags : Nat) (e : SaxEvent),
      (stepFlags flags e).testBit k = ((flags.testBit k).xor (P flags e)) := by
  intro flags e
  cases e with
  | startElement n =>
      simp only [stepFlags, flip_states_eq_xor, Nat.testBit_xor, hmask]
  | endElement n =>
      simp only [stepFlags, flip_states_eq_xor, Nat.testBit_xor, hmask, hsym]
  | characters t => simp [stepFlags, hchar]

theorem and_two_pow_ne_zero (a k : Nat) :
    a &&& 2 ^ k ≠ 0 ↔ a.testBit k = true := by
  rw [Nat.and_two_pow]
  cases h : a.testBit k <;> simp

theorem runFlags_root_parity (evs : List SaxEvent) :
    (runFlags 0 evs).testBit 1
      = decide (eventCount isRootTag 0 evs % 2 = 1) := by
  have := runFlags_testBit_parity isRootTag 1
    (stepFlags_testBit_of_mask 1 isRootTag (fun _ _ => rfl) (fun _ _ => rfl)
      tagToggleMask_testBit_root) evs 0
  simpa using this

theorem runFlags_gated_parity (key : String) (k : Nat)
    (hmask : ∀ flags n,
      (tagToggleMask flags n).testBit k
        = isGatedTag key flags (SaxEvent.startElement n))
    (evs : List SaxEvent) :
    (runFlags 0 evs).testBit k
      = decide (eventCount (isGatedTag key) 0 evs % 2 = 1) := by
  have := runFlags_testBit_parity (isGatedTag key) k
    (stepFlags_testBit_of_mask k (isGatedTag key) (fun _ _ => rfl)
      (fun _ _ => rfl) hmask) evs 0
  simpa using this

/-- C7 amended: during any parse, the root flag is in the active-state
set exactly when an odd number of open/close events of either root
spelling have been seen, and every other flag exactly when an odd
number of open/close events of its tag name have been seen among those
arriving while the root flag was set (events of non-root tags arriving
outside the root are ignored by `sol_sax_flip_states`). -/
theorem flag_parity_characterization (evs : List SaxEvent) :
    (runFlags 0 evs &&& MDATA_ROOT ≠ 0 ↔
        eventCount isRootTag 0 evs % 2 = 1) ∧
    (runFlags 0 evs &&& MDATA_PACKAGE ≠ 0 ↔
        eventCount (isGatedTag "Package") 0 evs % 2 = 1) ∧
    (runFlags 0 evs &&& MDATA_HISTORY ≠ 0 ↔
        eventCount (isGatedTag "History") 0 evs % 2 = 1) ∧
    (runFlags 0 evs &&& MDATA_SOURCE ≠ 0 ↔
        eventCount (isGatedTag "Source") 0 evs % 2 = 1) ∧
    (runFlags 0 evs &&& MDATA_NAME ≠ 0 ↔
        eventCount (isGatedTag "Name") 0 evs % 2 = 1) ∧
    (runFlags 0 evs &&& MDATA_COMPONENT ≠ 0 ↔
        eventCount (isGatedTag "PartOf") 0 evs % 2 = 1) ∧
    (runFlags 0 evs &&& MDATA_PACKAGER ≠ 0 ↔
        eventCount (isGatedTag "Packager") 0 evs % 2 = 1) ∧
    (runFlags 0 evs &&& MDATA_EMAIL ≠ 0 ↔
        eventCount (isGatedTag "Email") 0 evs % 2 = 1) := by
  refine ⟨?_, ?_, ?_, ?_, ?_, ?_, ?_, ?_⟩
  · rw [show MDATA_ROOT = 2 ^ 1 from rfl, and_two_pow_ne_zero,
      runFlags_root_parity]
    simp
  · rw [show MDATA_PACKAGE = 2 ^ 2 from rfl, and_two_pow_ne_zero,
      runFlags_gated_parity "Package" 2 tagToggleMask_testBit_package]
    simp
  · rw [show MDATA_HISTORY = 2 ^ 3 from rfl, and_two_pow_ne_zero,
      runFlags_gated_parity "History" 3 tagToggleMask_testBit_history]
    simp
  · rw [show MDATA_SOURCE = 2 ^ 4 from rfl, and_two_pow_ne_zero,
      runFlags_gated_parity "Source" 4 tagToggleMask_testBit_source]
    simp
  · rw [show MDATA_NAME = 2 ^ 5 from rfl, and_two_pow_ne_zero,
      runFlags_gated_parity "Name" 5 tagToggleMask_testBit_name]
    simp
  · rw [show MDATA_COMPONENT = 2 ^ 6 from rfl, and_two_pow_ne_zero,
      runFlags_gated_parity "PartOf" 6 tagToggleMask_testBit_component]
    simp
  · rw [show MDATA_PACKAGER = 2 ^ 7 from rfl, and_two_pow_ne_zero,
      runFlags_gated_parity "Packager" 7 tagToggleMask_testBit_packager]
    simp
  · rw [show MDATA_EMAIL = 2 ^ 8 from rfl, and_two_pow_ne_zero,
      runFlags_gated_parity "Email" 8 tagToggleMask_testBit_email]
    simp
